import Mathlib

/-
Shallow embedding of the authentication/session core of the LibraryAPITest
repository (FastAPI backend): password policy (app/auth/utils.py),
bcrypt-backed credential hashing (app/auth/utils.py over the external
pyca/bcrypt primitive), refresh-token store operations (app/auth/services.py),
the access/refresh verification dependencies (app/auth/dependencies.py), and
the login/token/logout routers (app/auth/routers.py).

Conventions used throughout:
  - Python datetimes are modelled as integer timestamps (seconds); the
    ambient clock (datetime.utcnow()) is passed explicitly as a `now`
    argument to every function that reads it in the source.
  - The database is modelled as a list of records; SQLAlchemy queries of the
    shape select(...).filter(col == v) followed by scalars().first() become
    List.find? on the corresponding field.
  - Randomness (bcrypt.gensalt, generate_random_alphanum, uuid4) is passed
    in as explicit arguments.
  - Python exceptions that the code raises deliberately are modelled with
    explicit sum types; an exception that escapes every handler in the
    modelled code is a distinct constructor, never merged with the
    deliberate ones.
-/

namespace LibraryAPI

/-- Result of a Python call: either a returned value or a raised exception
carrying its message. -/
inductive PyResult (α : Type) where
  | ok (a : α)
  | exn (msg : String)
deriving DecidableEq

/-- Roles from app/users/schemas.py (UserRole: ADMIN | USER). -/
inductive UserRole where
  | admin
  | user
deriving DecidableEq

/-- A row of the `user` table (app/users/models.py UserModel): id, unique
username, unique email, bcrypt password digest (LargeBinary, modelled as a
byte list), role. Timestamps are omitted: no modelled operation reads them. -/
structure UserRec where
  id : Int
  username : String
  email : String
  password : List Nat
  role : UserRole
deriving DecidableEq

/-- A row of the `refresh_token` table (app/auth/models.py
RefreshTokenModel): uuid primary key, owning user id, opaque value,
absolute expiry timestamp. -/
structure RefreshTokenRec where
  uuid : String
  user_id : Int
  refresh_token : String
  expires_at : Int
deriving DecidableEq

/-- UserService.get_by_id (app/users/services.py): first row with the id. -/
def get_by_id (users : List UserRec) (user_id : Int) : Option UserRec :=
  users.find? (fun u => u.id == user_id)

/-- UserService.get_by_username (app/users/services.py). -/
def get_by_username (users : List UserRec) (username : String) : Option UserRec :=
  users.find? (fun u => u.username == username)

/-- Configuration defaults from app/config.py (Config). -/
def JWT_EXP : Nat := 10

/-- REFRESH_TOKEN_EXP default: 60 * 60 * 24 * 21 seconds (app/config.py). -/
def REFRESH_TOKEN_EXP : Nat := 1814400

/-- The character class `[A-Za-z]` of STRONG_PASSWORD_PATTERN
(app/auth/utils.py line 14): ASCII letters only, even in Unicode mode. -/
def isReLetter (c : Char) : Bool :=
  (decide (c ≥ 'A') && decide (c ≤ 'Z')) || (decide (c ≥ 'a') && decide (c ≤ 'z'))

/-- The special-symbol class `[!@#%^&*]` of STRONG_PASSWORD_PATTERN. -/
def isSpecialSym (c : Char) : Bool :=
  c == '!' || c == '@' || c == '#' || c == '%' || c == '^' || c == '&' || c == '*'

/-- First codepoints of the contiguous ten-character runs that make up the
Unicode decimal-digit category Nd (Unicode 15.0): ASCII, Arabic-Indic,
extended Arabic-Indic, NKo, the Indic scripts, Thai, Lao, Tibetan,
Myanmar (plus Shan and Tai Laing), Khmer, Mongolian, Limbu, New Tai Lue,
Tai Tham (Hora and Tham), Balinese, Sundanese, Lepcha, Ol Chiki, Vai,
Saurashtra, Kayah Li, Javanese, Cham, Meetei Mayek, fullwidth, and the
supplementary-plane digit runs including the five mathematical alphabets. -/
def ndRangeStarts : List Nat :=
  [0x30, 0x660, 0x6F0, 0x7C0, 0x966, 0x9E6, 0xA66, 0xAE6, 0xB66, 0xBE6,
   0xC66, 0xCE6, 0xD66, 0xDE6, 0xE50, 0xED0, 0xF20, 0x1040, 0x1090, 0x17E0,
   0x1810, 0x1946, 0x19D0, 0x1A80, 0x1A90, 0x1B50, 0x1BB0, 0x1C40, 0x1C50,
   0xA620, 0xA8D0, 0xA900, 0xA9D0, 0xA9F0, 0xAA50, 0xABF0, 0xFF10,
   0x104A0, 0x10D30, 0x11066, 0x110F0, 0x11136, 0x111D0, 0x112F0, 0x11450,
   0x114D0, 0x11650, 0x116C0, 0x11730, 0x118E0, 0x11950, 0x11C50, 0x11D50,
   0x11DA0, 0x11F50, 0x16A60, 0x16AC0, 0x16B50,
   0x1D7CE, 0x1D7D8, 0x1D7E2, 0x1D7EC, 0x1D7F6,
   0x1E140, 0x1E2F0, 0x1E4F0, 0x1E950, 0x1FBF0]

/-- The `\d` class of STRONG_PASSWORD_PATTERN: the pattern is compiled
without re.ASCII, so `\d` matches every Unicode decimal digit (category
Nd), each script contributing one contiguous run of ten codepoints. -/
def isReDigit (c : Char) : Bool :=
  ndRangeStarts.any fun s => decide (s ≤ c.toNat) && decide (c.toNat < s + 10)

/-- The body class `[A-Za-z\d!@#%^&*]` of STRONG_PASSWORD_PATTERN, with
`\d` the Unicode decimal digits as above. -/
def allowedChar (c : Char) : Bool :=
  isReLetter c || isReDigit c || isSpecialSym c

/-- A lookahead `(?=.*[X])` applied at position 0 of the subject: `.` does
not match a newline (no DOTALL flag on the pattern), so the class must be
matched at a position reachable without crossing a newline, i.e. inside the
prefix of the subject that precedes its first newline. -/
def lookaheadDotStar (cls : Char → Bool) (l : List Char) : Bool :=
  (l.takeWhile (fun c => c ≠ '\n')).any cls

/-- The tail `[A-Za-z\d!@#%^&*]{6,128}$` of STRONG_PASSWORD_PATTERN,
applied at position 0: with backtracking, it matches exactly when some
k with 6 ≤ k ≤ 128 body characters starting at position 0 are all in the
class and `$` matches at position k. Without re.MULTILINE, `$` matches at
the end of the subject or just before a newline that is the last
character (Python re semantics). -/
def classRunThenEnd (l : List Char) : Bool :=
  (List.range 123).any fun i =>
    let k := 6 + i
    decide (k ≤ l.length) && (l.take k).all allowedChar &&
      (l.drop k == [] || l.drop k == ['\n'])

/-- is_strong_password (app/auth/utils.py lines 143-157):
re.match of STRONG_PASSWORD_PATTERN, i.e. the three lookaheads followed by
the anchored class run. re.match anchors at the start (the `^` is
redundant) but not at the end; the pattern's own `$` provides the end
anchor, with the trailing-newline tolerance noted above. -/
def is_strong_password (p : String) : Bool :=
  lookaheadDotStar isReDigit p.data &&
  lookaheadDotStar isReLetter p.data &&
  lookaheadDotStar isSpecialSym p.data &&
  classRunThenEnd p.data

/-- The spec-shaped strength predicate on a candidate body (no newline
handling): length within the inclusive range 6..128, every character drawn
from the allowed classes, and at least one digit, one letter and one
special symbol present. -/
def strongBody (l : List Char) : Bool :=
  decide (6 ≤ l.length) && decide (l.length ≤ 128) &&
  l.all allowedChar &&
  l.any isReDigit && l.any isReLetter && l.any isSpecialSym

/-- UTF-8 encoding of one character, as Python's bytes(s, "utf-8")
produces it. -/
def encodeCharUtf8 (c : Char) : List Nat :=
  let n := c.toNat
  if n < 128 then [n]
  else if n < 2048 then [192 + n / 64, 128 + n % 64]
  else if n < 65536 then [224 + n / 4096, 128 + (n / 64) % 64, 128 + n % 64]
  else [240 + n / 262144, 128 + (n / 4096) % 64, 128 + (n / 64) % 64, 128 + n % 64]

/-- bytes(s, "utf-8"): the UTF-8 byte sequence of a Python string. -/
def utf8Bytes (s : String) : List Nat :=
  s.data.foldr (fun c acc => encodeCharUtf8 c ++ acc) []

/-
Model of the external pyca/bcrypt primitive used by app/auth/utils.py.
A bcrypt salt string is "$2b$" + two cost digits + "$" + the salt, and a
full digest appends the 23-byte hash; bcrypt.hashpw parses the salt
section of its second argument (raising ValueError("Invalid salt") when it
does not parse), reruns the key-derivation function on the password
truncated to 72 bytes, and formats cost, salt and hash back into a digest
string; bcrypt.checkpw(password, hashed) is hashpw(password, hashed)
compared for equality with hashed (constant-time in the real library).
The radix-64 text encoding of the 16 salt bytes and the hash is abstracted
to the raw bytes (it is injective and parsed back exactly like the real
encoding), and the key-derivation function itself (EksBlowfish) is a
parameter `raw`: every theorem below holds for an arbitrary `raw`.
-/

/-- The salt/digest header "$2b$" ++ cost (two decimal digits) ++ "$"
followed by the salt bytes, 36/50/98 being the byte values of the dollar
sign, the digit 2 and the letter b. -/
def saltHeader (cost : Nat) (salt : List Nat) : List Nat :=
  [36, 50, 98, 36, 48 + cost / 10, 48 + cost % 10, 36] ++ salt

/-- Parse the salt section of a bcrypt salt-or-digest byte string:
the "$2b$NN$" header with decimal cost digits followed by at least the 16
salt bytes; anything else is malformed. Returns the cost and the salt. -/
def parseSaltSection (d : List Nat) : Option (Nat × List Nat) :=
  match d with
  | 36 :: 50 :: 98 :: 36 :: c1 :: c2 :: 36 :: rest =>
    if 48 ≤ c1 ∧ c1 ≤ 57 ∧ 48 ≤ c2 ∧ c2 ≤ 57 ∧ 16 ≤ rest.length then
      some ((c1 - 48) * 10 + (c2 - 48), rest.take 16)
    else none
  | _ => none

/-- bcrypt.hashpw(password, salt_or_digest): parse the salt section (raise
ValueError("Invalid salt") when malformed), run the KDF `raw` on the
password truncated to 72 bytes, and format the digest. -/
def bcrypt_hashpw (raw : List Nat → Nat → List Nat → List Nat)
    (password salt_or_digest : List Nat) : PyResult (List Nat) :=
  match parseSaltSection salt_or_digest with
  | none => .exn "Invalid salt"
  | some (cost, salt) =>
    .ok (saltHeader cost salt ++ raw (password.take 72) cost salt)

/-- bcrypt.checkpw(password, hashed_password): recompute
hashpw(password, hashed_password) and compare with hashed_password;
a ValueError raised by hashpw propagates. -/
def bcrypt_checkpw (raw : List Nat → Nat → List Nat → List Nat)
    (password hashed_password : List Nat) : PyResult Bool :=
  match bcrypt_hashpw raw password hashed_password with
  | .exn e => .exn e
  | .ok ret => .ok (ret == hashed_password)

/-- bcrypt.gensalt(): default cost 12 and 16 fresh random bytes (the
randomness is the explicit `salt` argument). -/
def bcrypt_gensalt (salt : List Nat) : List Nat :=
  saltHeader 12 salt

/-- hash_password (app/auth/utils.py lines 107-122): UTF-8 encode the
password, draw a fresh salt with bcrypt.gensalt(), and hash. -/
def hash_password (raw : List Nat → Nat → List Nat → List Nat)
    (salt : List Nat) (password : String) : PyResult (List Nat) :=
  bcrypt_hashpw raw (utf8Bytes password) (bcrypt_gensalt salt)

/-- check_password (app/auth/utils.py lines 125-140): UTF-8 encode the
candidate password and call bcrypt.checkpw against the stored digest; the
function installs no exception handler, so a ValueError from the
primitive propagates to the caller. -/
def check_password (raw : List Nat → Nat → List Nat → List Nat)
    (password : String) (password_in_db : List Nat) : PyResult Bool :=
  bcrypt_checkpw raw (utf8Bytes password) password_in_db

/-- A KDF stub for concrete evaluations: echoes the truncated password.
Theorems are stated for every KDF; witnesses may pick this one. -/
def rawEcho : List Nat → Nat → List Nat → List Nat :=
  fun pw _ _ => pw

/-- The deliberate exception classes of app/auth/exceptions.py. -/
inductive AuthException where
  | authRequired
  | authorizationFailed
  | invalidCredentials
  | refreshTokenNotValid
  | accessTokenRequired
  | accessTokenExpired
  | accessTokenInvalid
deriving DecidableEq

/-- HTTP status of each exception class (app/auth/exceptions.py):
NotAuthenticated subclasses are 401, PermissionDenied subclasses 403. -/
def AuthException.status : AuthException → Nat
  | .authRequired => 401
  | .authorizationFailed => 403
  | .invalidCredentials => 401
  | .refreshTokenNotValid => 401
  | .accessTokenRequired => 403
  | .accessTokenExpired => 403
  | .accessTokenInvalid => 403

/-- Detail text of each exception class (ErrorCode, app/auth/exceptions.py). -/
def AuthException.detail : AuthException → String
  | .authRequired => "Authentication required."
  | .authorizationFailed => "Authorization failed. User has no access."
  | .invalidCredentials => "Invalid credentials."
  | .refreshTokenNotValid => "Refresh token is not valid."
  | .accessTokenRequired => "Access token is required in the Authorization header."
  | .accessTokenExpired => "Access token has expired. Get a new one."
  | .accessTokenInvalid => "Invalid token."

/-- TokenService.get_refresh_token_by_value (app/auth/services.py):
first row whose refresh_token column equals the value. -/
def get_refresh_token_by_value (tokens : List RefreshTokenRec)
    (value : String) : Option RefreshTokenRec :=
  tokens.find? (fun t => t.refresh_token == value)

/-- TokenService.get_refresh_token_by_uuid (app/auth/services.py). -/
def get_refresh_token_by_uuid (tokens : List RefreshTokenRec)
    (token_uuid : String) : Option RefreshTokenRec :=
  tokens.find? (fun t => t.uuid == token_uuid)

/-- is_refresh_token_expired (app/auth/utils.py lines 67-78):
datetime.utcnow() > expires_at, with the clock explicit. -/
def is_refresh_token_expired (now : Int) (t : RefreshTokenRec) : Bool :=
  decide (now > t.expires_at)

/-- Replace the expiry of a record in place: the ORM mutation
token.expires_at = ts applied to the single row returned by the uuid
lookup, i.e. the first row with that uuid. -/
def setExpiryFirst (token_uuid : String) (ts : Int) :
    List RefreshTokenRec → List RefreshTokenRec
  | [] => []
  | t :: rest =>
    if t.uuid == token_uuid then ⟨t.uuid, t.user_id, t.refresh_token, ts⟩ :: rest
    else t :: setExpiryFirst token_uuid ts rest

/-- TokenService.expire_refresh_token (app/auth/services.py lines 90-105):
look the record up by uuid; when found, back-date its expiry to
utcnow() - timedelta(days=1) and commit; when not found, do nothing. -/
def expire_refresh_token (now : Int) (tokens : List RefreshTokenRec)
    (token_uuid : String) : List RefreshTokenRec :=
  match get_refresh_token_by_uuid tokens token_uuid with
  | none => tokens
  | some _ => setExpiryFirst token_uuid (now - 86400) tokens

/-- TokenService.create_refresh_token (app/auth/services.py lines 15-43):
generate a 64-character opaque value (the randomness is the explicit
`value` argument) and a fresh uuid, persist the record with expiry
utcnow() + REFRESH_TOKEN_EXP seconds, return the opaque value. -/
def create_refresh_token (now : Int) (value token_uuid : String)
    (tokens : List RefreshTokenRec) (user_id : Int) :
    String × List RefreshTokenRec :=
  (value, tokens ++ [⟨token_uuid, user_id, value, now + REFRESH_TOKEN_EXP⟩])

/-- The access-token claims structure the codec signs
(generate_access_token, app/auth/utils.py lines 81-104): subject is
str(user.id), expiry is utcnow() + JWT_EXP minutes, plus the admin flag. -/
structure AccessTokenData where
  sub : String
  exp : Int
  is_admin : Bool
deriving DecidableEq

/-- generate_access_token (app/auth/utils.py lines 81-104) with the
default expires_delta of JWT_EXP minutes. -/
def generate_access_token (now : Int) (user : UserRec) : AccessTokenData :=
  ⟨toString user.id, now + JWT_EXP * 60, user.role == UserRole.admin⟩

/-- The three outcomes of jose's jwt.decode on a presented token string:
ExpiredSignatureError (well-signed but past its expiry), any other
JWTError (bad signature or structure), or the decoded payload. The codec
itself is external; the dependency below is verified for every decoder. -/
inductive DecodeResult where
  | expired
  | invalid
  | ok (sub : String) (is_admin : Bool)
deriving DecidableEq

/-- Decimal value of a digit string. -/
def digitsToNat (l : List Char) : Nat :=
  l.foldl (fun acc c => acc * 10 + (c.toNat - 48)) 0

/-- Model of pydantic's lax str-to-int coercion used for the "sub" claim of
JWTData (app/auth/schemas.py): an optionally negated decimal integer
string parses, anything else raises a ValidationError. Unlike the regex
`\d` above, this coercion accepts only the ASCII digits (the parser is
Rust's integer parser), so Char.isDigit is the faithful class here. -/
def parseSubClaim (s : String) : Option Int :=
  match s.data with
  | [] => none
  | c :: rest =>
    if c = '-' then
      if rest ≠ [] ∧ rest.all Char.isDigit then
        some (-(digitsToNat rest : Int))
      else none
    else if (c :: rest).all Char.isDigit then
      some ((digitsToNat (c :: rest) : Int))
    else none

/-- Outcome of the access-token dependency: a deliberate AuthException, an
uncategorized pydantic ValidationError escaping the decode error handler,
or the resolved user. -/
inductive AccessCheckOutcome where
  | err (e : AuthException)
  | uncaughtValidation
  | ok (u : UserRec)
deriving DecidableEq

/-- get_user_from_access_token (app/auth/dependencies.py lines 84-126).
The oauth2 scheme with auto_error=False yields None when no bearer token
is presented; the guard `if not access_token` also catches the empty
string. Only ExpiredSignatureError and JWTError are caught around
jwt.decode; the subsequent JWTData(**payload) construction sits outside
the try block, so a payload whose "sub" does not coerce to an int raises
an uncaught ValidationError. The later truthiness check on the constructed
JWTData is vacuous (a pydantic model instance is always truthy) and is
omitted. On success the user freshly loaded from the database is
returned. -/
def get_user_from_access_token (decode : String → DecodeResult)
    (users : List UserRec) (access_token : Option String) :
    AccessCheckOutcome :=
  match access_token with
  | none => .err .accessTokenRequired
  | some t =>
    if t = "" then .err .accessTokenRequired
    else
      match decode t with
      | .expired => .err .accessTokenExpired
      | .invalid => .err .accessTokenInvalid
      | .ok sub _ =>
        match parseSubClaim sub with
        | none => .uncaughtValidation
        | some user_id =>
          match get_by_id users user_id with
          | none => .err .accessTokenInvalid
          | some u => .ok u

/-- get_user_from_refresh_token (app/auth/dependencies.py lines 25-62).
The cookie parameter has default None, so an absent cookie reaches the
handler as None; the guard `if not refresh_token_value` also catches an
empty cookie value. -/
def get_user_from_refresh_token (now : Int) (users : List UserRec)
    (tokens : List RefreshTokenRec) (refresh_token_value : Option String) :
    Except AuthException UserRec :=
  match refresh_token_value with
  | none => .error .authRequired
  | some v =>
    if v = "" then .error .authRequired
    else
      match get_refresh_token_by_value tokens v with
      | none => .error .refreshTokenNotValid
      | some rt =>
        if is_refresh_token_expired now rt then .error .refreshTokenNotValid
        else
          match get_by_id users rt.user_id with
          | none => .error .refreshTokenNotValid
          | some u => .ok u

/-- The token-exchange endpoint (app/auth/routers.py lines 67-75,
get_api_access_token): run the refresh-token dependency and mint an access
token for the resolved user. -/
def get_api_access_token (now : Int) (users : List UserRec)
    (tokens : List RefreshTokenRec) (refresh_token_value : Option String) :
    Except AuthException AccessTokenData :=
  (get_user_from_refresh_token now users tokens refresh_token_value).map
    (generate_access_token now)

/-- UserService.authenticate (app/users/services.py lines 105-126): look
the user up by the form username; return None when the user is absent or
check_password fails, the user otherwise. The short-circuit of
`if not user or not check_password(...)` means no password check runs for
an unknown username; an exception raised by check_password (malformed
stored digest) propagates. -/
def authenticate (raw : List Nat → Nat → List Nat → List Nat)
    (users : List UserRec) (username password : String) :
    PyResult (Option UserRec) :=
  match get_by_username users username with
  | none => .ok none
  | some u =>
    match check_password raw password u.password with
    | .exn e => .exn e
    | .ok b => .ok (if b then some u else none)

/-- Outcome of the login endpoint: the success response with the refresh
cookie it sets (value and max-age, per get_refresh_token_cookie_settings),
a deliberate HTTP exception, or an uncaught Python exception. -/
inductive LoginOutcome where
  | success (detail : String) (cookieValue : String) (cookieMaxAge : Nat)
  | raised (e : AuthException)
  | pyerror (msg : String)
deriving DecidableEq

/-- The login endpoint (app/auth/routers.py lines 46-64): authenticate;
raise InvalidCredentials when it yields no user; otherwise create a
refresh token and set the refresh cookie with max_age REFRESH_TOKEN_EXP
(get_refresh_token_cookie_settings, app/auth/utils.py lines 35-64),
answering SuccessLoginPesponse (detail "Login successful"). Returns the
outcome together with the refresh-token table after the request. -/
def login (raw : List Nat → Nat → List Nat → List Nat) (now : Int)
    (value token_uuid : String) (users : List UserRec)
    (tokens : List RefreshTokenRec) (username password : String) :
    LoginOutcome × List RefreshTokenRec :=
  match authenticate raw users username password with
  | .exn e => (.pyerror e, tokens)
  | .ok none => (.raised .invalidCredentials, tokens)
  | .ok (some u) =>
    let r := create_refresh_token now value token_uuid tokens u.id
    (.success "Login successful" r.1 REFRESH_TOKEN_EXP, r.2)

/-- Outcome of the logout endpoint: the success response (with a flag
recording whether the handler reached the delete_cookie call), or the 422
rejection FastAPI produces before the handler runs when a required cookie
parameter is missing. -/
inductive LogoutOutcome where
  | success (detail : String) (cookieCleared : Bool)
  | validationError
deriving DecidableEq

/-- The logout endpoint (app/auth/routers.py lines 78-101). The cookie
parameter is declared Cookie(..., alias="refreshToken") — the Ellipsis
default makes it required, so a request without the cookie is rejected by
FastAPI request validation (422) before the handler body runs. Inside the
handler: an empty cookie value returns SuccessLogoutPesponse immediately
(before delete_cookie); otherwise the record is looked up by value and,
when found, expired via TokenService.expire_refresh_token, and the cookie
is deleted either way. -/
def logout_user (now : Int) (tokens : List RefreshTokenRec)
    (refresh_token_value : Option String) :
    LogoutOutcome × List RefreshTokenRec :=
  match refresh_token_value with
  | none => (.validationError, tokens)
  | some v =>
    if v = "" then (.success "Logout successful" false, tokens)
    else
      match get_refresh_token_by_value tokens v with
      | none => (.success "Logout successful" true, tokens)
      | some rt =>
        (.success "Logout successful" true, expire_refresh_token now tokens rt.uuid)

/-- A concrete decoder for witness instantiations. -/
def decodeW : String → DecodeResult :=
  fun t =>
    if t = "e" then .expired
    else if t = "i" then .invalid
    else if t = "g" then .ok "1" false
    else if t = "m" then .ok "2" true
    else .ok "abc" false

/-- A concrete one-user database for witness instantiations. -/
def usersW : List UserRec :=
  [⟨1, "alice", "alice@x.com", [], UserRole.user⟩]

/-- C1: per-request access-token verification. Without a presented token
(or with an empty one) it fails with AccessTokenRequired; a well-signed
token past its expiry fails with AccessTokenExpired; any other decode
failure fails with AccessTokenInvalid; a decoded token whose subject
resolves to no stored principal fails with AccessTokenInvalid; otherwise
the principal freshly loaded from the store is returned — the embedded
admin flag of the token is never consulted, so the role is the store's
current one. -/
theorem access_token_verification_cases
    (decode : String → DecodeResult) (users : List UserRec) :
    (get_user_from_access_token decode users none
        = .err .accessTokenRequired) ∧
    (get_user_from_access_token decode users (some "")
        = .err .accessTokenRequired) ∧
    (∀ t, t ≠ "" → decode t = .expired →
      get_user_from_access_token decode users (some t)
        = .err .accessTokenExpired) ∧
    (∀ t, t ≠ "" → decode t = .invalid →
      get_user_from_access_token decode users (some t)
        = .err .accessTokenInvalid) ∧
    (∀ t sub adm user_id, t ≠ "" → decode t = .ok sub adm →
      parseSubClaim sub = some user_id → get_by_id users user_id = none →
      get_user_from_access_token decode users (some t)
        = .err .accessTokenInvalid) ∧
    (∀ t sub adm user_id u, t ≠ "" → decode t = .ok sub adm →
      parseSubClaim sub = some user_id → get_by_id users user_id = some u →
      get_user_from_access_token decode users (some t) = .ok u) := by
  refine ⟨rfl, rfl, ?_, ?_, ?_, ?_⟩
  · intro t ht hd
    simp [get_user_from_access_token, ht, hd]
  · intro t ht hd
    simp [get_user_from_access_token, ht, hd]
  · intro t sub adm user_id ht hd hp hg
    simp [get_user_from_access_token, ht, hd, hp, hg]
  · intro t sub adm user_id u ht hd hp hg
    simp [get_user_from_access_token, ht, hd, hp, hg]

theorem access_token_verification_cases_witness :
    get_user_from_access_token decodeW usersW none
        = .err .accessTokenRequired ∧
    get_user_from_access_token decodeW usersW (some "e")
        = .err .accessTokenExpired ∧
    get_user_from_access_token decodeW usersW (some "i")
        = .err .accessTokenInvalid ∧
    get_user_from_access_token decodeW usersW (some "m")
        = .err .accessTokenInvalid ∧
    get_user_from_access_token decodeW usersW (some "g")
        = .ok ⟨1, "alice", "alice@x.com", [], UserRole.user⟩ :=
  ⟨(access_token_verification_cases decodeW usersW).1,
   (access_token_verification_cases decodeW usersW).2.2.1 "e"
      (by decide) (by decide),
   (access_token_verification_cases decodeW usersW).2.2.2.1 "i"
      (by decide) (by decide),
   (access_token_verification_cases decodeW usersW).2.2.2.2.1 "m" "2" true 2
      (by decide) (by decide) (by decide) (by decide),
   (access_token_verification_cases decodeW usersW).2.2.2.2.2 "g" "1" false 1
      ⟨1, "alice", "alice@x.com", [], UserRole.user⟩
      (by decide) (by decide) (by decide) (by decide)⟩

/-- C10: a token that decodes successfully (well-signed, non-expired) but
whose "sub" claim does not coerce to an integer is not mapped to
AccessTokenInvalid: the JWTData construction runs outside the decode error
handler, so the request surfaces an uncategorized validation failure, not
any exception of the taxonomy. -/
theorem access_token_non_int_subject_escapes
    (decode : String → DecodeResult) (users : List UserRec)
    (t sub : String) (adm : Bool)
    (ht : t ≠ "") (hd : decode t = .ok sub adm)
    (hp : parseSubClaim sub = none) :
    get_user_from_access_token decode users (some t) = .uncaughtValidation ∧
    ∀ e : AuthException,
      get_user_from_access_token decode users (some t) ≠ .err e := by
  constructor
  · simp [get_user_from_access_token, ht, hd, hp]
  · intro e
    simp [get_user_from_access_token, ht, hd, hp]

theorem access_token_non_int_subject_escapes_witness :
    get_user_from_access_token decodeW usersW (some "z")
      = .uncaughtValidation :=
  (access_token_non_int_subject_escapes decodeW usersW "z" "abc" false
      (by decide) (by decide) (by decide)).1

/-- A concrete refresh-token table for witness instantiations: a live
token, an expired one, and one owned by a user id that resolves to no
stored user. -/
def tokensW : List RefreshTokenRec :=
  [⟨"uuid-1", 1, "val-live", 100⟩,
   ⟨"uuid-2", 1, "val-dead", 0⟩,
   ⟨"uuid-3", 9, "val-orphan", 100⟩]

/-- C2: refresh-to-access token exchange. An absent (or empty) opaque
cookie value fails with AuthRequired; a value matched by no stored record
fails with RefreshTokenNotValid, as do a matched-but-expired record and a
matched record whose owning principal no longer exists; otherwise the
endpoint mints and returns an access token whose subject is the string of
that principal's id. -/
theorem token_exchange_cases (now : Int) (users : List UserRec)
    (tokens : List RefreshTokenRec) :
    (get_api_access_token now users tokens none = .error .authRequired) ∧
    (get_api_access_token now users tokens (some "") = .error .authRequired) ∧
    (∀ v, v ≠ "" → get_refresh_token_by_value tokens v = none →
      get_api_access_token now users tokens (some v)
        = .error .refreshTokenNotValid) ∧
    (∀ v rt, v ≠ "" → get_refresh_token_by_value tokens v = some rt →
      is_refresh_token_expired now rt = true →
      get_api_access_token now users tokens (some v)
        = .error .refreshTokenNotValid) ∧
    (∀ v rt, v ≠ "" → get_refresh_token_by_value tokens v = some rt →
      is_refresh_token_expired now rt = false →
      get_by_id users rt.user_id = none →
      get_api_access_token now users tokens (some v)
        = .error .refreshTokenNotValid) ∧
    (∀ v rt u, v ≠ "" → get_refresh_token_by_value tokens v = some rt →
      is_refresh_token_expired now rt = false →
      get_by_id users rt.user_id = some u →
      get_api_access_token now users tokens (some v)
          = .ok (generate_access_token now u) ∧
        (generate_access_token now u).sub = toString u.id) := by
  refine ⟨rfl, rfl, ?_, ?_, ?_, ?_⟩
  · intro v hv hfind
    simp [get_api_access_token, get_user_from_refresh_token, hv, hfind, Except.map]
  · intro v rt hv hfind hexp
    simp [get_api_access_token, get_user_from_refresh_token, hv, hfind, hexp,
      Except.map]
  · intro v rt hv hfind hexp hu
    simp [get_api_access_token, get_user_from_refresh_token, hv, hfind, hexp, hu,
      Except.map]
  · intro v rt u hv hfind hexp hu
    refine ⟨?_, rfl⟩
    simp [get_api_access_token, get_user_from_refresh_token, hv, hfind, hexp, hu,
      Except.map]

theorem token_exchange_cases_witness :
    get_api_access_token 50 usersW tokensW none = .error .authRequired ∧
    get_api_access_token 50 usersW tokensW (some "nope")
        = .error .refreshTokenNotValid ∧
    get_api_access_token 50 usersW tokensW (some "val-dead")
        = .error .refreshTokenNotValid ∧
    get_api_access_token 50 usersW tokensW (some "val-orphan")
        = .error .refreshTokenNotValid ∧
    get_api_access_token 50 usersW tokensW (some "val-live")
        = .ok ⟨"1", 650, false⟩ :=
  ⟨(token_exchange_cases 50 usersW tokensW).1,
   (token_exchange_cases 50 usersW tokensW).2.2.1 "nope"
      (by decide) (by decide),
   (token_exchange_cases 50 usersW tokensW).2.2.2.1 "val-dead"
      ⟨"uuid-2", 1, "val-dead", 0⟩ (by decide) (by decide) (by decide),
   (token_exchange_cases 50 usersW tokensW).2.2.2.2.1 "val-orphan"
      ⟨"uuid-3", 9, "val-orphan", 100⟩ (by decide) (by decide) (by decide)
      (by decide),
   ((token_exchange_cases 50 usersW tokensW).2.2.2.2.2 "val-live"
      ⟨"uuid-1", 1, "val-live", 100⟩ ⟨1, "alice", "alice@x.com", [], UserRole.user⟩
      (by decide) (by decide) (by decide) (by decide)).1⟩

/-- A character of the body class is never a newline. -/
theorem allowedChar_ne_newline {c : Char} (h : allowedChar c = true) : c ≠ '\n' := by
  intro heq
  subst heq
  exact absurd h (by decide)

/-- takeWhile walks through a prefix every element of which satisfies the
predicate. -/
theorem takeWhile_append_of_all (q : Char → Bool) :
    ∀ (body rest : List Char), (∀ c ∈ body, q c = true) →
      (body ++ rest).takeWhile q = body ++ rest.takeWhile q := by
  intro body
  induction body with
  | nil => intro rest _; simp
  | cons a l ih =>
    intro rest h
    have ha : q a = true := h a (by simp)
    have hl : ∀ c ∈ l, q c = true := fun c hc => h c (by simp [hc])
    simp [List.takeWhile_cons, ha, ih rest hl]

/-- The anchored class run matches exactly the strings that decompose as a
6..128-character run of body-class characters followed by nothing or by a
single final newline. -/
theorem classRunThenEnd_iff (l : List Char) :
    classRunThenEnd l = true ↔
      ∃ body rest, l = body ++ rest ∧ 6 ≤ body.length ∧ body.length ≤ 128 ∧
        body.all allowedChar = true ∧ (rest = [] ∨ rest = ['\n']) := by
  constructor
  · intro h
    obtain ⟨i, hi, hcond⟩ := List.any_eq_true.mp h
    have hi123 : i < 123 := List.mem_range.mp hi
    simp only [Bool.and_eq_true, decide_eq_true_eq, Bool.or_eq_true, beq_iff_eq] at hcond
    obtain ⟨⟨hk, hall⟩, hrest⟩ := hcond
    refine ⟨l.take (6 + i), l.drop (6 + i), (l.take_append_drop (6 + i)).symm, ?_, ?_, hall, ?_⟩
    · have : (l.take (6 + i)).length = 6 + i := by
        rw [List.length_take]
        omega
      omega
    · have : (l.take (6 + i)).length = 6 + i := by
        rw [List.length_take]
        omega
      omega
    · exact hrest
  · intro h
    obtain ⟨body, rest, hdec, h6, h128, hall, hrest⟩ := h
    apply List.any_eq_true.mpr
    refine ⟨body.length - 6, List.mem_range.mpr (by omega), ?_⟩
    have hk : 6 + (body.length - 6) = body.length := by omega
    simp only [hk, Bool.and_eq_true, decide_eq_true_eq, Bool.or_eq_true, beq_iff_eq]
    subst hdec
    refine ⟨⟨by simp, ?_⟩, ?_⟩
    · rw [List.take_left]
      exact hall
    · rw [List.drop_left]
      exact hrest

/-- The prefix of the subject before its first newline is exactly the body
when the subject is a class-character body optionally followed by a final
newline. -/
theorem takeWhile_newline_of_body (body rest : List Char)
    (hall : body.all allowedChar = true) (hrest : rest = [] ∨ rest = ['\n']) :
    (body ++ rest).takeWhile (fun c => c ≠ '\n') = body := by
  have hb : ∀ c ∈ body, (fun c : Char => decide (c ≠ '\n')) c = true := by
    intro c hc
    simp only [decide_eq_true_eq]
    exact allowedChar_ne_newline (List.all_eq_true.mp hall c hc)
  have key := takeWhile_append_of_all (fun c : Char => decide (c ≠ '\n')) body rest hb
  rcases hrest with h | h <;> subst h <;> rw [key] <;>
    simp [List.takeWhile_cons]

/-- C3 (amended): is_strong_password accepts exactly the strings that are a
body of 6..128 characters, all drawn from the allowed classes and
containing at least one digit, one letter and one special symbol, either
alone or followed by one final newline — the newline is tolerated because
the pattern's `$` also matches just before a terminal newline; every other
out-of-class character is rejected, as is any out-of-range length. -/
theorem is_strong_password_iff (p : String) :
    is_strong_password p = true ↔
      ∃ body : List Char, (p.data = body ∨ p.data = body ++ ['\n']) ∧
        strongBody body = true := by
  unfold is_strong_password
  simp only [Bool.and_eq_true]
  constructor
  · intro h
    obtain ⟨⟨⟨hdig, hlet⟩, hspec⟩, hrun⟩ := h
    obtain ⟨body, rest, hdec, h6, h128, hall, hrest⟩ := (classRunThenEnd_iff p.data).mp hrun
    have htw : p.data.takeWhile (fun c => c ≠ '\n') = body := by
      rw [hdec]
      exact takeWhile_newline_of_body body rest hall hrest
    refine ⟨body, ?_, ?_⟩
    · rcases hrest with h | h <;> subst h
      · left; simpa using hdec
      · right; exact hdec
    · unfold lookaheadDotStar at hdig hlet hspec
      rw [htw] at hdig hlet hspec
      unfold strongBody
      simp only [Bool.and_eq_true, decide_eq_true_eq]
      exact ⟨⟨⟨⟨⟨h6, h128⟩, hall⟩, hdig⟩, hlet⟩, hspec⟩
  · intro h
    obtain ⟨body, hdec, hsb⟩ := h
    unfold strongBody at hsb
    simp only [Bool.and_eq_true, decide_eq_true_eq] at hsb
    obtain ⟨⟨⟨⟨⟨h6, h128⟩, hall⟩, hdig⟩, hlet⟩, hspec⟩ := hsb
    have hdec' : ∃ rest, p.data = body ++ rest ∧ (rest = [] ∨ rest = ['\n']) := by
      rcases hdec with h | h
      · exact ⟨[], by simpa using h, Or.inl rfl⟩
      · exact ⟨['\n'], h, Or.inr rfl⟩
    obtain ⟨rest, hdec2, hrest⟩ := hdec'
    have htw : p.data.takeWhile (fun c => c ≠ '\n') = body := by
      rw [hdec2]
      exact takeWhile_newline_of_body body rest hall hrest
    refine ⟨⟨⟨?_, ?_⟩, ?_⟩, ?_⟩
    · unfold lookaheadDotStar; rw [htw]; exact hdig
    · unfold lookaheadDotStar; rw [htw]; exact hlet
    · unfold lookaheadDotStar; rw [htw]; exact hspec
    · exact (classRunThenEnd_iff p.data).mpr ⟨body, rest, hdec2, h6, h128, hall, hrest⟩

/-- C3 (counterexample): the claim as stated — acceptance is equivalent to
length-in-range plus one digit, one letter, one special symbol, and any
string containing a character outside the allowed classes is rejected —
is false: the subject "Pass1!" followed by a newline contains the
out-of-class newline yet is accepted. -/
theorem strong_password_claim_false :
    ¬ (∀ p : String,
        (is_strong_password p = true ↔
          (6 ≤ p.data.length ∧ p.data.length ≤ 128 ∧
           p.data.any isReDigit = true ∧ p.data.any isReLetter = true ∧
           p.data.any isSpecialSym = true)) ∧
        (p.data.all allowedChar = false → is_strong_password p = false)) := by
  intro h
  have h2 := (h "Pass1!\n").2 (by decide)
  exact absurd h2 (by decide)

/-- C4 (amended): on the spec's concrete vectors the code yields
true for "short1!" (7 characters, above the 6 minimum), false for
"alllowercase1" and "NOSPECIAL1" (no special symbol), and false for
"Test_password1!" (the underscore is outside the allowed classes). -/
theorem password_vectors_eval :
    is_strong_password "short1!" = true ∧
    is_strong_password "alllowercase1" = false ∧
    is_strong_password "NOSPECIAL1" = false ∧
    is_strong_password "Test_password1!" = false := by
  decide

/-- C4 (counterexample): the spec's claimed evaluations are jointly false —
"short1!" is accepted and "Test_password1!" is rejected. -/
theorem password_vectors_claim_false :
    ¬ (is_strong_password "short1!" = false ∧
       is_strong_password "alllowercase1" = false ∧
       is_strong_password "NOSPECIAL1" = false ∧
       is_strong_password "Test_password1!" = true) := by
  decide

/-- C5 (counterexample): the no-throw claim is false — on the malformed
digest bytes of "garbage" the verify operation raises the primitive's
ValueError rather than returning false. -/
theorem verify_never_throws_claim_false :
    ¬ (∀ (p : String) (d : List Nat), parseSaltSection d = none →
        check_password rawEcho p d = PyResult.ok false) := by
  intro h
  have hg := h "password" (utf8Bytes "garbage") (by decide)
  exact absurd hg (by decide)

/-- C5 (amended): for every plaintext and every malformed
(non-bcrypt-shaped) digest, the verify operation raises — check_password
installs no exception handler, so bcrypt's ValueError("Invalid salt")
propagates; it never returns false on a malformed digest. -/
theorem check_password_malformed_raises
    (raw : List Nat → Nat → List Nat → List Nat) (p : String) (d : List Nat)
    (hd : parseSaltSection d = none) :
    check_password raw p d = .exn "Invalid salt" := by
  simp [check_password, bcrypt_checkpw, bcrypt_hashpw, hd]

theorem check_password_malformed_raises_witness :
    check_password rawEcho "password" (utf8Bytes "garbage")
      = .exn "Invalid salt" :=
  check_password_malformed_raises rawEcho "password" (utf8Bytes "garbage")
    (by decide)

/-- Parsing the salt section of a header-led byte string recovers the cost
and the 16 salt bytes, whatever follows them. -/
theorem parseSaltSection_header (salt tail : List Nat) (hs : salt.length = 16) :
    parseSaltSection (saltHeader 12 salt ++ tail) = some (12, salt) := by
  have h1 : saltHeader 12 salt ++ tail
      = 36 :: 50 :: 98 :: 36 :: 49 :: 50 :: 36 :: (salt ++ tail) := by
    simp [saltHeader]
  rw [h1]
  have hlen : 16 ≤ (salt ++ tail).length := by simp [hs]
  have htake : (salt ++ tail).take 16 = salt := by
    rw [← hs]
    exact List.take_left salt tail
  unfold parseSaltSection
  simp [hlen, htake, hs]

/-- C9: hash/verify round trip. For every key-derivation function, every
16-byte salt and every plaintext, hashing succeeds and verifying the
plaintext against the produced digest returns true (verify re-parses the
embedded salt, reruns the derivation on the same truncated bytes and
compares); and two hashes of the same plaintext under distinct fresh salts
are distinct digests (the salt is embedded in the digest). -/
theorem hash_verify_round_trip
    (raw : List Nat → Nat → List Nat → List Nat) (salt : List Nat)
    (p : String) (hs : salt.length = 16) :
    (∃ d, hash_password raw salt p = .ok d ∧
      check_password raw p d = .ok true) ∧
    ∀ salt', salt'.length = 16 → salt ≠ salt' →
      hash_password raw salt p ≠ hash_password raw salt' p := by
  have hparse0 : parseSaltSection (bcrypt_gensalt salt) = some (12, salt) := by
    have := parseSaltSection_header salt [] hs
    simpa [bcrypt_gensalt] using this
  have hhash : hash_password raw salt p
      = .ok (saltHeader 12 salt ++ raw ((utf8Bytes p).take 72) 12 salt) := by
    simp [hash_password, bcrypt_hashpw, hparse0]
  constructor
  · refine ⟨saltHeader 12 salt ++ raw ((utf8Bytes p).take 72) 12 salt, hhash, ?_⟩
    have hparse1 : parseSaltSection
        (saltHeader 12 salt ++ raw ((utf8Bytes p).take 72) 12 salt)
        = some (12, salt) := parseSaltSection_header salt _ hs
    simp [check_password, bcrypt_checkpw, bcrypt_hashpw, hparse1]
  · intro salt' hs' hne
    have hhash' : hash_password raw salt' p
        = .ok (saltHeader 12 salt' ++ raw ((utf8Bytes p).take 72) 12 salt') := by
      have hp0 : parseSaltSection (bcrypt_gensalt salt') = some (12, salt') := by
        have := parseSaltSection_header salt' [] hs'
        simpa [bcrypt_gensalt] using this
      simp [hash_password, bcrypt_hashpw, hp0]
    rw [hhash, hhash']
    intro heq
    have hlists := PyResult.ok.inj heq
    have hheads : saltHeader 12 salt = saltHeader 12 salt' := by
      have h23 : (saltHeader 12 salt).length = 23 := by simp [saltHeader, hs]
      have h23' : (saltHeader 12 salt').length = 23 := by simp [saltHeader, hs']
      calc saltHeader 12 salt
          = (saltHeader 12 salt ++ raw ((utf8Bytes p).take 72) 12 salt).take 23 := by
            rw [← h23]
            exact (List.take_left _ _).symm
        _ = (saltHeader 12 salt' ++ raw ((utf8Bytes p).take 72) 12 salt').take 23 := by
            rw [hlists]
        _ = saltHeader 12 salt' := by
            rw [← h23']
            exact List.take_left _ _
    have : salt = salt' := by
      simpa [saltHeader] using hheads
    exact hne this

theorem hash_verify_round_trip_witness :
    (∃ d, hash_password rawEcho (List.replicate 16 7) "Pwd12345!" = .ok d ∧
      check_password rawEcho "Pwd12345!" d = .ok true) ∧
    hash_password rawEcho (List.replicate 16 7) "Pwd12345!" ≠
      hash_password rawEcho (List.replicate 16 8) "Pwd12345!" :=
  ⟨(hash_verify_round_trip rawEcho (List.replicate 16 7) "Pwd12345!"
      (by decide)).1,
   (hash_verify_round_trip rawEcho (List.replicate 16 7) "Pwd12345!"
      (by decide)).2 (List.replicate 16 8) (by decide) (by decide)⟩

/-- A concrete one-user database whose stored digest is a well-formed
bcrypt digest of the password "Right1!x" under the echo KDF. -/
def usersAuthW : List UserRec :=
  [⟨1, "alice", "alice@x.com",
    saltHeader 12 (List.replicate 16 7) ++ (utf8Bytes "Right1!x").take 72,
    UserRole.user⟩]

/-- C6: login failure is indistinguishable by cause. A login attempt under
an unknown username and one under a known username with a wrong password
both raise InvalidCredentials — one exception value, hence one status
(401) and one detail text ("Invalid credentials.") for both causes. -/
theorem login_failure_indistinguishable
    (raw : List Nat → Nat → List Nat → List Nat) (now : Int)
    (value token_uuid : String) (users : List UserRec)
    (tokens : List RefreshTokenRec)
    (uname1 pwd1 uname2 pwd2 : String) (u : UserRec)
    (h1 : get_by_username users uname1 = none)
    (h2 : get_by_username users uname2 = some u)
    (h3 : check_password raw pwd2 u.password = .ok false) :
    (login raw now value token_uuid users tokens uname1 pwd1).1
        = .raised .invalidCredentials ∧
    (login raw now value token_uuid users tokens uname2 pwd2).1
        = .raised .invalidCredentials ∧
    (login raw now value token_uuid users tokens uname1 pwd1).1
        = (login raw now value token_uuid users tokens uname2 pwd2).1 ∧
    AuthException.invalidCredentials.detail = "Invalid credentials." := by
  have e1 : (login raw now value token_uuid users tokens uname1 pwd1).1
      = .raised .invalidCredentials := by
    simp [login, authenticate, h1]
  have e2 : (login raw now value token_uuid users tokens uname2 pwd2).1
      = .raised .invalidCredentials := by
    simp [login, authenticate, h2, h3]
  exact ⟨e1, e2, by rw [e1, e2], rfl⟩

theorem login_failure_indistinguishable_witness :
    (login rawEcho 0 "refreshvalue" "uuid-l" usersAuthW [] "bob" "Wrong1!x").1
        = .raised .invalidCredentials ∧
    (login rawEcho 0 "refreshvalue" "uuid-l" usersAuthW [] "alice" "Wrong1!x").1
        = .raised .invalidCredentials :=
  ⟨(login_failure_indistinguishable rawEcho 0 "refreshvalue" "uuid-l" usersAuthW
      [] "bob" "Wrong1!x" "alice" "Wrong1!x"
      ⟨1, "alice", "alice@x.com",
        saltHeader 12 (List.replicate 16 7) ++ (utf8Bytes "Right1!x").take 72,
        UserRole.user⟩
      (by decide) (by decide) (by decide)).1,
   (login_failure_indistinguishable rawEcho 0 "refreshvalue" "uuid-l" usersAuthW
      [] "bob" "Wrong1!x" "alice" "Wrong1!x"
      ⟨1, "alice", "alice@x.com",
        saltHeader 12 (List.replicate 16 7) ++ (utf8Bytes "Right1!x").take 72,
        UserRole.user⟩
      (by decide) (by decide) (by decide)).2.1⟩

/-- Looking up by uuid after back-dating the first record with that uuid
returns that record with the new expiry. -/
theorem get_by_uuid_setExpiryFirst (token_uuid : String) (ts : Int) :
    ∀ (l : List RefreshTokenRec) (rt : RefreshTokenRec),
      get_refresh_token_by_uuid l token_uuid = some rt →
      get_refresh_token_by_uuid (setExpiryFirst token_uuid ts l) token_uuid
        = some ⟨rt.uuid, rt.user_id, rt.refresh_token, ts⟩ := by
  intro l
  induction l with
  | nil =>
    intro rt h
    simp [get_refresh_token_by_uuid] at h
  | cons t rest ih =>
    intro rt h
    by_cases hc : (t.uuid == token_uuid) = true
    · have : t = rt := by
        simpa [get_refresh_token_by_uuid, List.find?_cons_of_pos, hc] using h
      subst this
      simp [setExpiryFirst, hc, get_refresh_token_by_uuid, List.find?_cons_of_pos]
    · have hrest : get_refresh_token_by_uuid rest token_uuid = some rt := by
        simpa [get_refresh_token_by_uuid, List.find?_cons_of_neg, hc] using h
      have := ih rt hrest
      simp only [setExpiryFirst, hc, if_false]
      simpa [get_refresh_token_by_uuid, List.find?_cons_of_neg, hc] using this

/-- Back-dating the same record to the same timestamp twice equals doing
it once. -/
theorem setExpiryFirst_idem (token_uuid : String) (ts : Int) :
    ∀ l : List RefreshTokenRec,
      setExpiryFirst token_uuid ts (setExpiryFirst token_uuid ts l)
        = setExpiryFirst token_uuid ts l := by
  intro l
  induction l with
  | nil => rfl
  | cons t rest ih =>
    by_cases hc : (t.uuid == token_uuid) = true
    · simp [setExpiryFirst, hc]
    · simp [setExpiryFirst, hc, ih]

/-- C7: refresh-token revocation. When a record with the identifier
exists, revocation back-dates its expiry to one day before the current
time — strictly in the past, so the record is reported expired at the
present time and at every later one; revoking again at the same clock
reading leaves the table unchanged (idempotence); and revoking an
identifier with no matching record is a no-op that raises nothing. -/
theorem revoke_refresh_token_behaviour (now : Int)
    (tokens : List RefreshTokenRec) (token_uuid : String) :
    (∀ rt, get_refresh_token_by_uuid tokens token_uuid = some rt →
      get_refresh_token_by_uuid (expire_refresh_token now tokens token_uuid)
          token_uuid
        = some ⟨rt.uuid, rt.user_id, rt.refresh_token, now - 86400⟩ ∧
      now - 86400 < now ∧
      (∀ t, now ≤ t →
        is_refresh_token_expired t
          ⟨rt.uuid, rt.user_id, rt.refresh_token, now - 86400⟩ = true)) ∧
    (expire_refresh_token now (expire_refresh_token now tokens token_uuid)
        token_uuid
      = expire_refresh_token now tokens token_uuid) ∧
    (get_refresh_token_by_uuid tokens token_uuid = none →
      expire_refresh_token now tokens token_uuid = tokens) := by
  refine ⟨?_, ?_, ?_⟩
  · intro rt hfind
    refine ⟨?_, by omega, ?_⟩
    · simp only [expire_refresh_token, hfind]
      exact get_by_uuid_setExpiryFirst token_uuid (now - 86400) tokens rt hfind
    · intro t ht
      simp only [is_refresh_token_expired, decide_eq_true_eq]
      omega
  · cases hfind : get_refresh_token_by_uuid tokens token_uuid with
    | none => simp [expire_refresh_token, hfind]
    | some rt =>
      have h2 := get_by_uuid_setExpiryFirst token_uuid (now - 86400) tokens rt hfind
      simp [expire_refresh_token, hfind, h2, setExpiryFirst_idem]
  · intro hfind
    simp [expire_refresh_token, hfind]

theorem revoke_refresh_token_behaviour_witness :
    get_refresh_token_by_uuid (expire_refresh_token 50 tokensW "uuid-1")
        "uuid-1" = some ⟨"uuid-1", 1, "val-live", -86350⟩ ∧
    is_refresh_token_expired 50 ⟨"uuid-1", 1, "val-live", -86350⟩ = true ∧
    expire_refresh_token 50 (expire_refresh_token 50 tokensW "uuid-1") "uuid-1"
        = expire_refresh_token 50 tokensW "uuid-1" ∧
    expire_refresh_token 50 tokensW "uuid-absent" = tokensW :=
  ⟨((revoke_refresh_token_behaviour 50 tokensW "uuid-1").1
      ⟨"uuid-1", 1, "val-live", 100⟩ (by decide)).1,
   ((revoke_refresh_token_behaviour 50 tokensW "uuid-1").1
      ⟨"uuid-1", 1, "val-live", 100⟩ (by decide)).2.2 50 (by decide),
   (revoke_refresh_token_behaviour 50 tokensW "uuid-1").2.1,
   (revoke_refresh_token_behaviour 50 tokensW "uuid-absent").2.2 (by decide)⟩

/-- C8 (counterexample): the claim that every logout request presenting no
opaque refresh value returns success is false — with the cookie entirely
absent the request is rejected by request validation (the cookie
parameter is declared required), as the concrete empty-state request
shows. -/
theorem logout_absent_cookie_claim_false :
    ¬ (∀ (now : Int) (tokens : List RefreshTokenRec), ∃ d b,
        (logout_user now tokens none).1 = LogoutOutcome.success d b) := by
  intro h
  obtain ⟨d, b, h1⟩ := h 0 []
  simp [logout_user] at h1

/-- C8 (amended): a logout request presenting an empty opaque value
succeeds as a no-op (no stored record changes, and the early return skips
even the cookie deletion); a request presenting an unknown value succeeds
without changing stored records; but a request presenting no refreshToken
cookie at all is rejected by FastAPI request validation before the
handler runs, because the cookie parameter is declared required — so
consecutive logouts both succeed only while the client keeps presenting
some cookie value. -/
theorem logout_behaviour (now : Int) (tokens : List RefreshTokenRec) :
    logout_user now tokens none = (.validationError, tokens) ∧
    logout_user now tokens (some "")
        = (.success "Logout successful" false, tokens) ∧
    (∀ v, v ≠ "" → get_refresh_token_by_value tokens v = none →
      logout_user now tokens (some v)
        = (.success "Logout successful" true, tokens)) ∧
    (∀ v rt, v ≠ "" → get_refresh_token_by_value tokens v = some rt →
      logout_user now tokens (some v)
        = (.success "Logout successful" true,
            expire_refresh_token now tokens rt.uuid)) := by
  refine ⟨rfl, rfl, ?_, ?_⟩
  · intro v hv hfind
    simp [logout_user, hv, hfind]
  · intro v rt hv hfind
    simp [logout_user, hv, hfind]

theorem logout_behaviour_witness :
    logout_user 50 tokensW none = (.validationError, tokensW) ∧
    logout_user 50 tokensW (some "")
        = (.success "Logout successful" false, tokensW) ∧
    logout_user 50 tokensW (some "nope")
        = (.success "Logout successful" true, tokensW) :=
  ⟨(logout_behaviour 50 tokensW).1,
   (logout_behaviour 50 tokensW).2.1,
   (logout_behaviour 50 tokensW).2.2.1 "nope" (by decide) (by decide)⟩

end LibraryAPI
